/-
  Verification of the MiraViewer DICOM export pipeline
  (src/backend/export_dicom.py) against its natural-language specification.

  The Python source is shallowly embedded: pure helpers become Lean
  functions on `String`, `ℚ`, `ℤ` and lists; the dynamic DICOM dataset
  becomes a partial map from attribute names to tag values; fallible
  Python code (code that can raise) returns `Except String _`; the
  stateful orchestration loop becomes a fold over an explicit input
  description threading a statistics record and a catalog table.
-/
import Mathlib

/-! ## Tag values and datasets

A decoded DICOM element value, as surfaced by pydicom attribute access.
Scalars cover text (`str`), integer-valued elements (IS and US/UL VRs,
surfaced as Python `int`), decimal-valued elements (DS/FL VRs, surfaced
as Python `float`, modelled exactly by `ℚ`), and `PersonName` objects.
Multi-valued elements are lists of scalars. -/

inductive DScalar where
  | str (s : String)
  | int (n : ℤ)
  | num (q : ℚ)
  | person (s : String)
  deriving DecidableEq, Repr

inductive DValue where
  | scalar (v : DScalar)
  | list (vs : List DScalar)
  deriving DecidableEq, Repr

/-- A parsed dataset: attribute name to value; `none` means the
attribute is absent (Python `getattr` falls back to the default). -/
def DS : Type := String → Option DValue

/-! ## Python-semantics helpers -/

/-- Model of Python `str(float)` / `repr` of a numeric element.  The exact
digit rendering of non-integral floats is immaterial to every claim (the
only property relied on is that a bracketed list rendering is not a
numeric literal), so integral values render as `"n.0"` like CPython and
other rationals fall back to the raw rational rendering. -/
def ratPyStr (q : ℚ) : String :=
  if q.den = 1 then toString q.num ++ ".0" else toString q

/-- Python `str(scalar)` (also `repr` inside a list display, up to
quoting, which no claim depends on). -/
def dScalarStr : DScalar → String
  | .str s => s
  | .int n => toString n
  | .num q => ratPyStr q
  | .person s => s

/-- Python `str(list(value))` for a multi-valued element: a bracketed,
comma-separated rendering. -/
def pyReprList (vs : List DScalar) : String :=
  "[" ++ String.intercalate ", " (vs.map dScalarStr) ++ "]"

/-- Python `str(value)` on a possibly-absent value (`str(None) = "None"`;
unreachable for the call sites in `extract_metadata`, which pass a
non-`None` default). -/
def pyStrOpt : Option DValue → String
  | none => "None"
  | some (.scalar v) => dScalarStr v
  | some (.list vs) => pyReprList vs

/-- Python truthiness of a decoded value (`if value:`). -/
def dTruthy : DValue → Bool
  | .scalar (.str s) => s ≠ ""
  | .scalar (.int n) => n ≠ 0
  | .scalar (.num q) => q ≠ 0
  | .scalar (.person s) => s ≠ ""
  | .list vs => vs ≠ []

/-- Python `a or b` on an optional value with a constant fallback. -/
def pyOr (v : Option DValue) (d : DValue) : DValue :=
  match v with
  | some x => if dTruthy x then x else d
  | none => d

/-- Digit-string parser used by the model of Python `float(str)`. -/
def parseDigits (cs : List Char) : Option ℕ :=
  if cs = [] then none
  else if cs.all Char.isDigit then
    some (cs.foldl (fun a c => a * 10 + (c.toNat - 48)) 0)
  else none

/-- Python-style strip of surrounding whitespace over a character list. -/
def trimChars (cs : List Char) : List Char :=
  ((cs.dropWhile Char.isWhitespace).reverse.dropWhile Char.isWhitespace).reverse

/-- Model of Python `float(s)` on a string: optional sign, digits with an
optional single decimal point (exponents are not modelled; no input in
this development uses them).  Any non-numeric string — in particular the
bracketed rendering `str(list(...))` of a multi-valued element — fails. -/
def parseFloat? (s : String) : Option ℚ :=
  let cs := trimChars s.data
  let signed : ℚ × List Char :=
    match cs with
    | '-' :: t => (-1, t)
    | '+' :: t => (1, t)
    | _ => (1, cs)
  let intPart := signed.2.takeWhile (fun c => c ≠ '.')
  let rest := signed.2.dropWhile (fun c => c ≠ '.')
  match rest with
  | [] => (parseDigits intPart).map (fun n => signed.1 * n)
  | '.' :: frac =>
    if intPart = [] ∧ frac = [] then none
    else
      match (if intPart = [] then some 0 else parseDigits intPart),
            (if frac = [] then some 0 else parseDigits frac) with
      | some ip, some fp =>
        some (signed.1 * ((ip : ℚ) + (fp : ℚ) / ((10 : ℚ) ^ frac.length)))
      | _, _ => none
  | _ => none

/-- Python `float(value)` on a decoded element value: numbers convert,
strings are parsed (raising `ValueError` on failure), and non-numeric
objects raise `TypeError`. -/
def pyFloat : DValue → Except String ℚ
  | .scalar (.num q) => .ok q
  | .scalar (.int n) => .ok (n : ℚ)
  | .scalar (.str s) =>
    match parseFloat? s with
    | some q => .ok q
    | none => .error "ValueError"
  | .scalar (.person _) => .error "TypeError"
  | .list _ => .error "TypeError"

/-! ## safe_get (src/backend/export_dicom.py:127) -/

/-- Embedding of `safe_get(ds, attr, default)`: fetch the attribute with a
default, return the default when the value is absent or equals the
default, unwrap single-element multi-values, stringify longer
multi-values with `str(list(value))`, and normalize `PersonName` to a
plain string. -/
def safe_get (ds : DS) (attr : String) (default : Option DValue) : Option DValue :=
  match ds attr with
  | none => default
  | some v =>
    if some v = default then default
    else
      match v with
      | .list vs =>
        match vs with
        | [x] => some (.scalar x)
        | _ => some (.scalar (.str (pyReprList vs)))
      | .scalar (.person s) => some (.scalar (.str s))
      | v => some v

/-! ## Series-description classification (src/backend/export_dicom.py:235-290) -/

/-- Uppercasing as used by Python `str.upper()` (all inputs of interest
are ASCII).  Implemented over the character list so that the kernel can
evaluate it on literals. -/
def toUpperStr (s : String) : String := ⟨s.data.map Char.toUpper⟩

/-- Bool-valued substring containment over the character lists of two
strings (Python `pat in s`). -/
def listIsInfixOf (pat l : List Char) : Bool :=
  match l with
  | [] => pat.isEmpty
  | _ :: t => pat.isPrefixOf l || listIsInfixOf pat t

def strContains (s pat : String) : Bool := listIsInfixOf pat.data s.data

def strStartsWith (s pat : String) : Bool := pat.data.isPrefixOf s.data

def strEndsWith (s pat : String) : Bool := pat.data.isSuffixOf s.data

/-- Embedding of `parse_plane(description)`: the imaging-plane classifier.
`none` input models Python `None`; the empty string is also falsy. -/
def parse_plane (description : Option String) : Option String :=
  match description with
  | none => none
  | some d =>
    if d = "" then none
    else
      let u := toUpperStr d
      if strContains u " AX " || strStartsWith u "AX " || strContains u "_AX_"
          || strContains u "AXIAL" then some "Axial"
      else if strContains u " COR " || strStartsWith u "COR " || strContains u "_COR_"
          || strContains u "CORONAL" then some "Coronal"
      else if strContains u " SAG " || strStartsWith u "SAG " || strContains u "_SAG_"
          || strContains u "SAGITTAL" then some "Sagittal"
      else none

/-- Embedding of `parse_weight(description)`: the T1/T2 weighting
classifier (T1 checked before T2). -/
def parse_weight (description : Option String) : Option String :=
  match description with
  | none => none
  | some d =>
    if d = "" then none
    else
      let u := toUpperStr d
      if strContains u "T1_" || strContains u "T1 " || strContains u "_T1"
          || strEndsWith u "T1" then some "T1"
      else if strContains u "T2_" || strContains u "T2 " || strContains u "_T2"
          || strEndsWith u "T2" then some "T2"
      else none

/-- The ordered (pattern, label) table of `parse_sequence_type`. -/
def sequencePatterns : List (String × String) :=
  [("FLAIR", "FLAIR"), ("SSFSE", "SSFSE"), ("SWI", "SWI"), ("SWAN", "SWAN"),
   ("DWI", "DWI"), ("DTI", "DTI"), ("ASL", "ASL"), ("ADC", "ADC"),
   ("GRE", "GRE"), ("SE", "SE"), ("LOC", "Localizer"), ("LOCALIZER", "Localizer")]

def firstMatch (u : String) : List (String × String) → Option String
  | [] => none
  | (pat, name) :: rest => if strContains u pat then some name else firstMatch u rest

/-- Embedding of `parse_sequence_type(description)`: ordered substring
match over the fixed priority list. -/
def parse_sequence_type (description : Option String) : Option String :=
  match description with
  | none => none
  | some d =>
    if d = "" then none
    else firstMatch (toUpperStr d) sequencePatterns


/-! ## Filename sanitization (src/backend/export_dicom.py:293) -/

/-- Characters replaced by `sanitize_filename`. -/
def badFilenameChars : List Char := ['/', '\\', ':', '*', '?', '"', '<', '>', '|']

/-- Embedding of `sanitize_filename(name)`: replace problematic
characters with underscores, strip surrounding whitespace, truncate to 50
characters; falsy input becomes `"unknown"`. -/
def sanitize_filename (name : String) : String :=
  if name = "" then "unknown"
  else
    let replaced := name.data.map (fun c => if badFilenameChars.contains c then '_' else c)
    ⟨(trimChars replaced).take 50⟩

/-! ## Numeric formatting used by the output-path code -/

/-- Python `{n:0wd}` formatting of an integer: zero-pad to total width
`w`, the sign (if any) counting toward the width. -/
def pyFormatIntPad (width : ℕ) (n : ℤ) : String :=
  let sign := if n < 0 then "-" else ""
  let digits := toString n.natAbs
  let padLen := width - (sign.length + digits.length)
  sign ++ ⟨List.replicate padLen '0'⟩ ++ digits

/-- Round a rational to the nearest integer, ties to even — the rounding
CPython's `format(x, '.1f')` applies to the (here exactly represented)
binary value. -/
def roundHalfEven (q : ℚ) : ℤ :=
  let f := ⌊q⌋
  let r := q - (f : ℚ)
  if r < 1/2 then f
  else if r > 1/2 then f + 1
  else if f % 2 = 0 then f else f + 1

/-- Python `{x:.1f}` formatting: one fractional digit, round half to
even, keeping the sign of a negative value rounded to zero. -/
def pyFormat1f (q : ℚ) : String :=
  let t := roundHalfEven (q * 10)
  let sign := if t < 0 ∨ (t = 0 ∧ q < 0) then "-" else ""
  let a := t.natAbs
  sign ++ toString (a / 10) ++ "." ++ toString (a % 10)

/-! ## InstanceMetadata (the dict built by extract_metadata,
src/backend/export_dicom.py:161-232) -/

structure Metadata where
  source_path : String := ""
  study_folder : String := ""
  study_instance_uid : Option DValue := none
  study_date : Option DValue := none
  study_time : Option DValue := none
  study_description : Option DValue := none
  accession_number : Option DValue := none
  patient_id : Option DValue := none
  patient_name : String := ""
  patient_birth_date : Option DValue := none
  patient_sex : Option DValue := none
  patient_age : Option DValue := none
  series_instance_uid : Option DValue := none
  series_number : Option DValue := none
  series_description : Option DValue := none
  series_date : Option DValue := none
  series_time : Option DValue := none
  modality : Option DValue := none
  body_part_examined : Option DValue := none
  sop_instance_uid : Option DValue := none
  instance_number : Option DValue := none
  acquisition_number : Option DValue := none
  slice_location : Option DValue := none
  slice_thickness : Option DValue := none
  image_position_patient : String := ""
  image_orientation_patient : String := ""
  rows : Option DValue := none
  columns : Option DValue := none
  bits_allocated : Option DValue := none
  bits_stored : Option DValue := none
  high_bit : Option DValue := none
  pixel_spacing : String := ""
  photometric_interpretation : Option DValue := none
  samples_per_pixel : Option DValue := none
  window_center : Option ℚ := none
  window_width : Option ℚ := none
  rescale_intercept : Option DValue := none
  rescale_slope : Option DValue := none
  manufacturer : Option DValue := none
  manufacturer_model_name : Option DValue := none
  station_name : Option DValue := none
  institution_name : Option DValue := none
  magnetic_field_strength : Option DValue := none
  sequence_name : Option DValue := none
  scanning_sequence : String := ""
  repetition_time : Option DValue := none
  echo_time : Option DValue := none
  inversion_time : Option DValue := none
  flip_angle : Option DValue := none
  plane : Option String := none
  weight : Option String := none
  sequence_type : Option String := none
  exported_jpeg_path : Option String := none
  deriving DecidableEq, Repr

/-- The empty-string default used by the `str(safe_get(ds, attr, ''))`
call sites. -/
def emptyStrDefault : Option DValue := some (.scalar (.str ""))

/-- Python `wc = wc[0] if wc else None` guarded by
`isinstance(wc, (list, tuple))`.  Note `safe_get` never returns a raw
list (it unwraps singletons and stringifies longer lists), so the list
arm is dead code, faithfully preserved from the source. -/
def unwrapIfList : Option DValue → Option DValue
  | some (.list vs) =>
    match vs with
    | [] => none
    | x :: _ => some (.scalar x)
  | v => v

/-- Python `float(wc) if wc is not None else None` for the window
center/width fields; raises when the value is a non-numeric string. -/
def optPyFloat : Option DValue → Except String (Option ℚ)
  | none => .ok none
  | some v => (pyFloat v).map some

/-- The series description as handed to the classification parsers:
`parse_plane(safe_get(ds, 'SeriesDescription'))`.  A falsy value short
circuits at the parser's truthiness test; a truthy value must be textual
or `description.upper()` raises `AttributeError`. -/
def seriesDescriptionArg (ds : DS) : Except String (Option String) :=
  match safe_get ds "SeriesDescription" none with
  | none => .ok none
  | some v =>
    if dTruthy v then
      match v with
      | .scalar (.str s) => .ok (some s)
      | _ => .error "AttributeError"
    else .ok none

/-- Embedding of `extract_metadata(ds, source_path, study_folder)`.
The window center/width handling (lines 153-159) runs first, as in the
source; the dict literal's values are pure except for the `float(...)`
conversions and the classifier calls on the series description. -/
def extract_metadata (ds : DS) (source_path study_folder : String) :
    Except String Metadata :=
  match optPyFloat (unwrapIfList (safe_get ds "WindowCenter" none)) with
  | .error e => .error e
  | .ok wcF =>
  match optPyFloat (unwrapIfList (safe_get ds "WindowWidth" none)) with
  | .error e => .error e
  | .ok wwF =>
  match seriesDescriptionArg ds with
  | .error e => .error e
  | .ok desc =>
  .ok {
    source_path := source_path
    study_folder := study_folder
    study_instance_uid := safe_get ds "StudyInstanceUID" none
    study_date := safe_get ds "StudyDate" none
    study_time := safe_get ds "StudyTime" none
    study_description := safe_get ds "StudyDescription" none
    accession_number := safe_get ds "AccessionNumber" none
    patient_id := safe_get ds "PatientID" none
    patient_name := pyStrOpt (safe_get ds "PatientName" emptyStrDefault)
    patient_birth_date := safe_get ds "PatientBirthDate" none
    patient_sex := safe_get ds "PatientSex" none
    patient_age := safe_get ds "PatientAge" none
    series_instance_uid := safe_get ds "SeriesInstanceUID" none
    series_number := safe_get ds "SeriesNumber" none
    series_description := safe_get ds "SeriesDescription" none
    series_date := safe_get ds "SeriesDate" none
    series_time := safe_get ds "SeriesTime" none
    modality := safe_get ds "Modality" none
    body_part_examined := safe_get ds "BodyPartExamined" none
    sop_instance_uid := safe_get ds "SOPInstanceUID" none
    instance_number := safe_get ds "InstanceNumber" none
    acquisition_number := safe_get ds "AcquisitionNumber" none
    slice_location := safe_get ds "SliceLocation" none
    slice_thickness := safe_get ds "SliceThickness" none
    image_position_patient := pyStrOpt (safe_get ds "ImagePositionPatient" emptyStrDefault)
    image_orientation_patient := pyStrOpt (safe_get ds "ImageOrientationPatient" emptyStrDefault)
    rows := safe_get ds "Rows" none
    columns := safe_get ds "Columns" none
    bits_allocated := safe_get ds "BitsAllocated" none
    bits_stored := safe_get ds "BitsStored" none
    high_bit := safe_get ds "HighBit" none
    pixel_spacing := pyStrOpt (safe_get ds "PixelSpacing" emptyStrDefault)
    photometric_interpretation := safe_get ds "PhotometricInterpretation" none
    samples_per_pixel := safe_get ds "SamplesPerPixel" none
    window_center := wcF
    window_width := wwF
    rescale_intercept := safe_get ds "RescaleIntercept" none
    rescale_slope := safe_get ds "RescaleSlope" none
    manufacturer := safe_get ds "Manufacturer" none
    manufacturer_model_name := safe_get ds "ManufacturerModelName" none
    station_name := safe_get ds "StationName" none
    institution_name := safe_get ds "InstitutionName" none
    magnetic_field_strength := safe_get ds "MagneticFieldStrength" none
    sequence_name := safe_get ds "SequenceName" none
    scanning_sequence := pyStrOpt (safe_get ds "ScanningSequence" emptyStrDefault)
    repetition_time := safe_get ds "RepetitionTime" none
    echo_time := safe_get ds "EchoTime" none
    inversion_time := safe_get ds "InversionTime" none
    flip_angle := safe_get ds "FlipAngle" none
    plane := parse_plane desc
    weight := parse_weight desc
    sequence_type := parse_sequence_type desc
    exported_jpeg_path := none
  }

/-- The dataset with no attributes at all. -/
def emptyDS : DS := fun _ => none

/-! ## Output-path planning (src/backend/export_dicom.py:413-436)

The path-construction block of `process_dicom_file`, as a pure fallible
function of the extracted metadata.  Python raises `TypeError` when
`len()` is applied to a non-sized value, `AttributeError` when
`.replace` is called on a non-string, and `ValueError` when `{:02d}` /
`{:.1f}` formatting is applied to a value of the wrong kind; all of
these abort the file and are caught at the per-file boundary.
(`safe_get` never returns a raw list, so only scalar cases arise.) -/

/-- `sanitize_filename` applied to a decoded value: only strings have
`.replace`. -/
def sanitize_dv : DValue → Except String String
  | .scalar (.str s) => .ok (sanitize_filename s)
  | _ => .error "AttributeError"

/-- The date reformat: `YYYYMMDD` → `YYYY-MM-DD` when the (string) value
has length 8; `len()` on a non-string raises. -/
def studyDateDir : DValue → Except String String
  | .scalar (.str s) =>
    .ok (if s.length = 8 then
      ⟨s.data.take 4⟩ ++ "-" ++ ⟨(s.data.drop 4).take 2⟩ ++ "-" ++ ⟨s.data.drop 6⟩
    else s)
  | _ => .error "TypeError"

/-- An integer for `{:02d}` / `{:04d}` formatting; floats and strings
raise `ValueError` under the `d` format code. -/
def asFormatInt : DValue → Except String ℤ
  | .scalar (.int n) => .ok n
  | _ => .error "ValueError"

/-- A number for `{:.1f}` formatting; strings raise `ValueError`. -/
def asFormatFloat : DValue → Except String ℚ
  | .scalar (.num q) => .ok q
  | .scalar (.int n) => .ok (n : ℚ)
  | _ => .error "ValueError"

/-- Embedding of the output-path derivation of `process_dicom_file`:
returns `(study_dir, series_dir, instance_filename)`. -/
def plan_components (md : Metadata) : Except String (String × String × String) := do
  let studyDate ← studyDateDir (pyOr md.study_date (.scalar (.str "unknown_date")))
  let studyDesc ← sanitize_dv
    (pyOr md.study_description (pyOr md.modality (.scalar (.str "study"))))
  let study_dir := studyDate ++ "_" ++ studyDesc
  let seriesNum ← asFormatInt (pyOr md.series_number (.scalar (.int 0)))
  let seriesDesc ← sanitize_dv (pyOr md.series_description (.scalar (.str "series")))
  let series_dir := pyFormatIntPad 2 seriesNum ++ "_" ++ seriesDesc
  let instNum ← asFormatInt (pyOr md.instance_number (.scalar (.int 0)))
  let fname ← match md.slice_location with
    | none => pure (pyFormatIntPad 4 instNum)
    | some v => do
      let loc ← asFormatFloat v
      pure (pyFormatIntPad 4 instNum ++ "_loc" ++ pyFormat1f loc)
  pure (study_dir, series_dir, fname)

/-- Model of `pathlib.Path.with_suffix` on the final path component:
replace the extension after the last dot, or append when there is
none.  (The leading-dot hidden-file special case never arises for the
generated instance filenames, which begin with a digit.) -/
def pyWithSuffix (name ext : String) : String :=
  let rev := name.data.reverse
  if rev.contains '.' then
    ⟨((rev.dropWhile (fun c => c ≠ '.')).drop 1).reverse⟩ ++ ext
  else name ++ ext


/-! ## Pixel rendering (src/backend/export_dicom.py:303-385)

The grayscale arithmetic of `dicom_to_image`, over exact rationals.  A
pixel grid is a list of rows.  `apply_modality_lut` and `apply_voi_lut`
are pydicom library calls, not repository code; `apply_modality` follows
the spec's modality transform (`raw * rescale_slope + rescale_intercept`)
and `apply_voi` is modelled from the spec: clip to
`[center - width/2, center + width/2]`, then linearly remap that range to
the output range (any strictly increasing affine remap yields the same
final image because the subsequent normalization rescales by the grid's
own min/max; with no window the grid passes through unchanged). -/

def Grid := List (List ℚ)

def gridJoin (g : List (List ℚ)) : List ℚ := g.flatten

def gridMin (g : List (List ℚ)) : ℚ := (gridJoin g).min?.getD 0

def gridMax (g : List (List ℚ)) : ℚ := (gridJoin g).max?.getD 0

/-- The modality linear transform, elementwise. -/
def apply_modality (slope intercept : ℚ) (g : List (List ℚ)) : List (List ℚ) :=
  g.map (List.map (fun x => x * slope + intercept))

def clampQ (lo hi x : ℚ) : ℚ := max lo (min hi x)

/-- Pointwise VOI windowing with window center `c`, width `w`. -/
def voiPoint (c w x : ℚ) : ℚ :=
  (clampQ (c - w/2) (c + w/2) x - (c - w/2)) / w * 65535

/-- Modelled from the spec: `apply_voi_lut(pixel_array, ds, index=0)`;
windowing when a window is present, identity otherwise. -/
def apply_voi (window : Option (ℚ × ℚ)) (g : List (List ℚ)) : List (List ℚ) :=
  match window with
  | none => g
  | some (c, w) => g.map (List.map (voiPoint c w))

/-- `numpy` cast of a nonnegative float to an unsigned integer type:
truncation (equals `⌊·⌋` on the nonnegative values this pipeline
produces; negative inputs never occur in the branch that casts). -/
def pyTruncToNat (q : ℚ) : ℕ := ⌊q⌋.toNat

/-- The min/max normalization block of `dicom_to_image` (lines 330-347):
rescale to the full target range, or produce an all-zero grid when the
grid is flat. -/
def normalize_grid (use16 : Bool) (g : List (List ℚ)) : List (List ℕ) :=
  let mn := gridMin g
  let mx := gridMax g
  if mn < mx then
    let top : ℚ := if use16 then 65535 else 255
    g.map (List.map (fun x => pyTruncToNat ((x - mn) / (mx - mn) * top)))
  else
    g.map (List.map (fun _ => 0))

/-- The grayscale branch of `dicom_to_image` (lines 322-354): modality
transform, VOI windowing, min/max normalization to the target bit depth,
and range inversion for MONOCHROME1. -/
def dicom_to_image_gray (photometric : String) (use16 : Bool)
    (slope intercept : ℚ) (window : Option (ℚ × ℚ))
    (g : List (List ℚ)) : List (List ℕ) :=
  let a := apply_modality slope intercept g
  let b := apply_voi window a
  let n := normalize_grid use16 b
  if photometric = "MONOCHROME1" then
    n.map (List.map (fun v => (if use16 then 65535 else 255) - v))
  else n

/-! ## Catalog store (src/backend/export_dicom.py:30-124, 444-453)

The `dicom_images` table, abstracted to the fields the claims concern:
a row per source path with its metadata payload.  `init_database`
declares `UNIQUE(source_path)`, and `process_dicom_file` writes with
`INSERT OR REPLACE`, whose SQLite semantics delete any row conflicting
on the unique constraint and insert the new row. -/

def Table := List (String × Metadata)

/-- `INSERT OR REPLACE INTO dicom_images ...` under `UNIQUE(source_path)`. -/
def insert_or_replace (t : List (String × Metadata)) (r : String × Metadata) :
    List (String × Metadata) :=
  (t.filter (fun x => x.1 != r.1)) ++ [r]

/-! ## Orchestration (src/backend/export_dicom.py:388-459, 462-618)

`process_dicom_file` and `export_all_dicoms`, over an abstract
description of the filesystem and of the per-file I/O outcomes: for each
candidate file, whether `pydicom.dcmread` succeeds (and with what parsed
dataset), whether `dicom_to_image` succeeds (it returns a `Bool` and
never raises, its body being wrapped in `try/except`), and whether the
database write succeeds. -/

/-- The run statistics dictionary (studies/series are sets of study and
series UIDs, converted to counts at the end of the run). -/
structure Stats where
  total_files : ℕ := 0
  processed : ℕ := 0
  failed : ℕ := 0
  skipped : ℕ := 0
  studies : Finset DValue := ∅
  series : Finset DValue := ∅

/-- A single candidate file's environment: its path, the result of
reading it, whether rendering succeeds, and whether the catalog write
succeeds. -/
structure FileWorld where
  path : String
  readResult : Except String DS
  renderOk : Bool
  dbResult : Except String Unit

/-- Lines 405-411: record the study/series UIDs in the stats sets when
present (Python set `add` under a truthiness guard). -/
def record_uids (st : Stats) (md : Metadata) : Stats :=
  let st := match md.study_instance_uid with
    | some v => if dTruthy v then { st with studies := insert v st.studies } else st
    | none => st
  match md.series_instance_uid with
  | some v => if dTruthy v then { st with series := insert v st.series } else st
  | none => st

/-- Embedding of `process_dicom_file`: read, extract, plan the output
path, render, upsert.  Any exception raised inside the body lands in the
`except` clause and yields `False`; mutations of the shared stats sets
made before the exception persist.  Returns the updated stats, the
updated catalog table, and the success flag. -/
def process_dicom_file (output_base study_folder : String) (w : FileWorld)
    (st : Stats) (t : List (String × Metadata)) :
    Stats × List (String × Metadata) × Bool :=
  match w.readResult with
  | .error _ => (st, t, false)
  | .ok ds =>
    match extract_metadata ds w.path study_folder with
    | .error _ => (st, t, false)
    | .ok md =>
      let st := record_uids st md
      match plan_components md with
      | .error _ => (st, t, false)
      | .ok (study_dir, series_dir, fname) =>
        let imgPath := output_base ++ "/" ++ study_dir ++ "/" ++ series_dir ++ "/" ++ fname
        let md := if w.renderOk then
            { md with exported_jpeg_path := some (pyWithSuffix imgPath ".png") }
          else
            { md with exported_jpeg_path := none }
        match w.dbResult with
        | .error _ => (st, t, false)
        | .ok _ => (st, insert_or_replace t (w.path, md), true)

/-- A file passed directly as an input path. -/
structure CandidateFile where
  parentName : String
  suffix : String
  sniff : Except String Bool
  world : FileWorld

/-- An entry produced by the recursive directory scan `rglob('*')`. -/
structure DirEntry where
  isFile : Bool
  relParts : List String
  suffix : String
  sniff : Except String Bool
  world : FileWorld

/-- One element of the `inputs` list: a nonexistent path, a file, or a
directory (with its name and scanned entries). -/
inductive InputEntry where
  | missing (path : String)
  | file (f : CandidateFile)
  | dir (rootName : String) (entries : List DirEntry)

def toLowerStr (s : String) : String := ⟨s.data.map Char.toLower⟩

/-- Embedding of `should_consider_file`: everything in `scan_all_files`
mode; otherwise known extensions, or a header sniff (`is_dicom`, whose
own exceptions yield `False`) for extensionless files. -/
def should_consider_file (scan_all : Bool) (suffix : String)
    (sniff : Except String Bool) : Bool :=
  if scan_all then true
  else
    let suf := toLowerStr suffix
    if suf = ".dcm" || suf = ".dicom" || suf = ".ima" then true
    else if suf = "" then
      match sniff with
      | .ok b => b
      | .error _ => false
    else false

/-- Embedding of `derive_study_folder_for_file`. -/
def derive_study_folder (group_by : Bool) (rootName : String)
    (relParts : List String) : String :=
  if group_by then
    match relParts with
    | p :: _ :: _ => p
    | _ => rootName
  else rootName

/-- The running accumulator of the export loop. -/
structure RunState where
  stats : Stats := {}
  table : List (String × Metadata) := []

/-- The shared classify step: process a candidate and increment
processed or failed according to the returned flag (lines 564-567 and
594-599). -/
def run_candidate (output_base study_folder : String) (w : FileWorld)
    (st : Stats) (t : List (String × Metadata)) : RunState :=
  match process_dicom_file output_base study_folder w st t with
  | (st', t', true) => { stats := { st' with processed := st'.processed + 1 }, table := t' }
  | (st', t', false) => { stats := { st' with failed := st'.failed + 1 }, table := t' }

/-- The body of the directory scan loop (lines 573-599) for one
directory entry. -/
def scan_step (scan_all group_by : Bool) (output_base rootName : String)
    (rs : RunState) (e : DirEntry) : RunState :=
  if !e.isFile then rs
  else if e.relParts.any (fun part => strStartsWith part ".") then rs
  else if toLowerStr e.suffix = ".zip" then rs
  else
    let st := { rs.stats with total_files := rs.stats.total_files + 1 }
    if !should_consider_file scan_all e.suffix e.sniff then
      { rs with stats := { st with skipped := st.skipped + 1 } }
    else
      run_candidate output_base (derive_study_folder group_by rootName e.relParts)
        e.world st rs.table

/-- The body of the input loop (lines 552-599) for one input entry. -/
def input_step (scan_all group_by : Bool) (output_base : String)
    (rs : RunState) (inp : InputEntry) : RunState :=
  match inp with
  | .missing _ => rs
  | .file f =>
    let st := { rs.stats with total_files := rs.stats.total_files + 1 }
    if !should_consider_file scan_all f.suffix f.sniff then
      { rs with stats := { st with skipped := st.skipped + 1 } }
    else
      run_candidate output_base f.parentName f.world st rs.table
  | .dir rootName entries =>
    entries.foldl (scan_step scan_all group_by output_base rootName) rs

/-- The final statistics dictionary returned by `export_all_dicoms`
(sets converted to counts). -/
structure RunSummary where
  total_files : ℕ
  processed : ℕ
  failed : ℕ
  skipped : ℕ
  studies : ℕ
  series : ℕ
  deriving DecidableEq, Repr

/-- Embedding of `export_all_dicoms` over a described input list. -/
def export_all_dicoms (scan_all group_by : Bool) (output_base : String)
    (inputs : List InputEntry) : RunSummary :=
  let rs := inputs.foldl (input_step scan_all group_by output_base) {}
  { total_files := rs.stats.total_files
    processed := rs.stats.processed
    failed := rs.stats.failed
    skipped := rs.stats.skipped
    studies := rs.stats.studies.card
    series := rs.stats.series.card }

/-! ## Concrete instances used by the theorems -/

/-- The dataset with no attributes at all (every lookup falls back to the
default). -/
def dsWithOnly (attr : String) (v : DValue) : DS :=
  fun a => if a = attr then some v else none

/-- A dataset whose `WindowCenter` element is multi-valued (two values),
as produced by pydicom for a two-valued DS element. -/
def dsMultiWindow : DS :=
  dsWithOnly "WindowCenter" (.list [.num 100, .num 200])

/-- The metadata record produced by extracting the empty dataset with
source path `"p"` and study folder `"f"` (all structure defaults apply:
absent attributes are `none`, the five stringified fields are `""`). -/
def mdOfEmpty : Metadata := { source_path := "p", study_folder := "f" }

/-- Metadata realizing the spec's path-planning vectors: study date
`"20240923"`, study description `"Brain MRI"`, series number 3, instance
number 12, slice location -4.25. -/
def mdVector : Metadata :=
  { study_date := some (.scalar (.str "20240923"))
    study_description := some (.scalar (.str "Brain MRI"))
    series_number := some (.scalar (.int 3))
    instance_number := some (.scalar (.int 12))
    slice_location := some (.scalar (.num (-17/4))) }

/-- The conjunction of token absences under which every classification
rule's pattern test is false: the uppercased description contains none of
the base tokens (each rule pattern contains one of these as a substring). -/
def containsNoClassifierToken (d : String) : Prop :=
  strContains (toUpperStr d) "AX" = false
  ∧ strContains (toUpperStr d) "COR" = false
  ∧ strContains (toUpperStr d) "SAG" = false
  ∧ strContains (toUpperStr d) "T1" = false
  ∧ strContains (toUpperStr d) "T2" = false
  ∧ strContains (toUpperStr d) "FLAIR" = false
  ∧ strContains (toUpperStr d) "SWI" = false
  ∧ strContains (toUpperStr d) "SWAN" = false
  ∧ strContains (toUpperStr d) "DWI" = false
  ∧ strContains (toUpperStr d) "DTI" = false
  ∧ strContains (toUpperStr d) "ASL" = false
  ∧ strContains (toUpperStr d) "ADC" = false
  ∧ strContains (toUpperStr d) "GRE" = false
  ∧ strContains (toUpperStr d) "SE" = false
  ∧ strContains (toUpperStr d) "LOC" = false

/-- A file world that reads cleanly (empty dataset), renders
successfully, and stores successfully. -/
def okWorld : FileWorld :=
  { path := "/scans/a.dcm", readResult := .ok emptyDS, renderOk := true, dbResult := .ok () }

/-- A file world identical to `okWorld` except that rendering fails
(`dicom_to_image` returns `False`). -/
def renderFailWorld : FileWorld :=
  { path := "p", readResult := .ok emptyDS, renderOk := false, dbResult := .ok () }

/-- A file world whose tag stream is unreadable (`dcmread` raises). -/
def badReadWorld : FileWorld :=
  { path := "p", readResult := .error "MalformedStream", renderOk := true, dbResult := .ok () }

/-- A file world that reads and renders but whose catalog write fails. -/
def badDbWorld : FileWorld :=
  { path := "p", readResult := .ok emptyDS, renderOk := true,
    dbResult := .error "CatalogWriteFailure" }

/-- A `.dcm` file input whose rendering fails but which otherwise
processes cleanly. -/
def renderFailInput : InputEntry :=
  .file { parentName := "f", suffix := ".dcm", sniff := .ok false, world := renderFailWorld }

/-- A zip archive passed directly as a file input. -/
def zipFileInput : InputEntry :=
  .file { parentName := "scans", suffix := ".zip", sniff := .ok false, world := okWorld }

/-- A zip archive encountered during a directory scan. -/
def zipDirEntry : DirEntry :=
  { isFile := true, relParts := ["x", "a.zip"], suffix := ".zip",
    sniff := .ok false, world := okWorld }

/-- The accounting invariant of the run statistics: every counted
candidate is classified into exactly one of processed, skipped, or
failed. -/
def statsBalanced (st : Stats) : Prop :=
  st.total_files = st.processed + st.skipped + st.failed

/-! ## Helper lemmas: substring monotonicity -/

theorem listIsInfixOf_iff (pat l : List Char) :
    listIsInfixOf pat l = true ↔ pat <:+: l := by
  induction l with
  | nil =>
    simp [listIsInfixOf, List.isEmpty_iff, List.infix_nil]
  | cons x t ih =>
    simp [listIsInfixOf, ih, List.infix_cons_iff, List.isPrefixOf_iff_prefix]

theorem contains_false_mono (u sub pat : String)
    (hsub : listIsInfixOf sub.data pat.data = true)
    (h : strContains u sub = false) : strContains u pat = false := by
  cases hc : strContains u pat with
  | false => rfl
  | true =>
    have h1 : pat.data <:+: u.data := (listIsInfixOf_iff _ _).mp hc
    have h2 : sub.data <:+: pat.data := (listIsInfixOf_iff _ _).mp hsub
    have h3 : strContains u sub = true := (listIsInfixOf_iff _ _).mpr (h2.trans h1)
    rw [h3] at h
    exact absurd h (by simp)

theorem startsWith_false_mono (u sub pat : String)
    (hsub : listIsInfixOf sub.data pat.data = true)
    (h : strContains u sub = false) : strStartsWith u pat = false := by
  cases hc : strStartsWith u pat with
  | false => rfl
  | true =>
    have h1 : pat.data <+: u.data := List.isPrefixOf_iff_prefix.mp hc
    have h2 : sub.data <:+: pat.data := (listIsInfixOf_iff _ _).mp hsub
    have h3 : strContains u sub = true := (listIsInfixOf_iff _ _).mpr (h2.trans h1.isInfix)
    rw [h3] at h
    exact absurd h (by simp)

theorem endsWith_false_mono (u sub pat : String)
    (hsub : listIsInfixOf sub.data pat.data = true)
    (h : strContains u sub = false) : strEndsWith u pat = false := by
  cases hc : strEndsWith u pat with
  | false => rfl
  | true =>
    have h1 : pat.data <:+ u.data := List.isSuffixOf_iff_suffix.mp hc
    have h2 : sub.data <:+: pat.data := (listIsInfixOf_iff _ _).mp hsub
    have h3 : strContains u sub = true := (listIsInfixOf_iff _ _).mpr (h2.trans h1.isInfix)
    rw [h3] at h
    exact absurd h (by simp)

/-! ## C1: classification test vectors -/

/-- C1 counterexample: the spec's vector `"Sag_T1" → plane Sagittal`
fails on the code — none of `parse_plane`'s rules (` SAG `, leading
`SAG `, `_SAG_`, `SAGITTAL`) matches the uppercased `"SAG_T1"`, so the
plane is absent. -/
theorem c1_sag_t1_plane_counterexample :
    parse_plane (some "Sag_T1") ≠ some "Sagittal" := by decide

/-- C1 (amended): the classification functions produce the spec's test
vectors for `"AX T2 FLAIR"` and `"COR LOC"`; for `"Sag_T1"` the
weighting is `T1` and the sequence is absent but the plane is also
absent (the plane rules have no underscore-at-string-start form); and a
description containing none of the classifier tokens yields all three
labels absent. -/
theorem c1_classification_vectors :
    (parse_plane (some "AX T2 FLAIR") = some "Axial"
      ∧ parse_weight (some "AX T2 FLAIR") = some "T2"
      ∧ parse_sequence_type (some "AX T2 FLAIR") = some "FLAIR")
    ∧ (parse_plane (some "Sag_T1") = none
      ∧ parse_weight (some "Sag_T1") = some "T1"
      ∧ parse_sequence_type (some "Sag_T1") = none)
    ∧ (parse_plane (some "COR LOC") = some "Coronal"
      ∧ parse_weight (some "COR LOC") = none
      ∧ parse_sequence_type (some "COR LOC") = some "Localizer")
    ∧ (∀ d : String, containsNoClassifierToken d →
      parse_plane (some d) = none ∧ parse_weight (some d) = none
        ∧ parse_sequence_type (some d) = none) := by
  refine ⟨by refine ⟨?_, ?_, ?_⟩ <;> decide,
          by refine ⟨?_, ?_, ?_⟩ <;> decide,
          by refine ⟨?_, ?_, ?_⟩ <;> decide, ?_⟩
  intro d h
  obtain ⟨hAX, hCOR, hSAG, hT1, hT2, hFLAIR, hSWI, hSWAN, hDWI, hDTI,
    hASL, hADC, hGRE, hSE, hLOC⟩ := h
  have a1 := contains_false_mono (toUpperStr d) "AX" " AX " (by decide) hAX
  have a2 := startsWith_false_mono (toUpperStr d) "AX" "AX " (by decide) hAX
  have a3 := contains_false_mono (toUpperStr d) "AX" "_AX_" (by decide) hAX
  have a4 := contains_false_mono (toUpperStr d) "AX" "AXIAL" (by decide) hAX
  have b1 := contains_false_mono (toUpperStr d) "COR" " COR " (by decide) hCOR
  have b2 := startsWith_false_mono (toUpperStr d) "COR" "COR " (by decide) hCOR
  have b3 := contains_false_mono (toUpperStr d) "COR" "_COR_" (by decide) hCOR
  have b4 := contains_false_mono (toUpperStr d) "COR" "CORONAL" (by decide) hCOR
  have c1 := contains_false_mono (toUpperStr d) "SAG" " SAG " (by decide) hSAG
  have c2 := startsWith_false_mono (toUpperStr d) "SAG" "SAG " (by decide) hSAG
  have c3 := contains_false_mono (toUpperStr d) "SAG" "_SAG_" (by decide) hSAG
  have c4 := contains_false_mono (toUpperStr d) "SAG" "SAGITTAL" (by decide) hSAG
  have w1 := contains_false_mono (toUpperStr d) "T1" "T1_" (by decide) hT1
  have w2 := contains_false_mono (toUpperStr d) "T1" "T1 " (by decide) hT1
  have w3 := contains_false_mono (toUpperStr d) "T1" "_T1" (by decide) hT1
  have w4 := endsWith_false_mono (toUpperStr d) "T1" "T1" (by decide) hT1
  have v1 := contains_false_mono (toUpperStr d) "T2" "T2_" (by decide) hT2
  have v2 := contains_false_mono (toUpperStr d) "T2" "T2 " (by decide) hT2
  have v3 := contains_false_mono (toUpperStr d) "T2" "_T2" (by decide) hT2
  have v4 := endsWith_false_mono (toUpperStr d) "T2" "T2" (by decide) hT2
  have s1 := contains_false_mono (toUpperStr d) "SE" "SSFSE" (by decide) hSE
  have s2 := contains_false_mono (toUpperStr d) "LOC" "LOCALIZER" (by decide) hLOC
  refine ⟨?_, ?_, ?_⟩
  · simp [parse_plane, a1, a2, a3, a4, b1, b2, b3, b4, c1, c2, c3, c4]
  · simp [parse_weight, w1, w2, w3, w4, v1, v2, v3, v4]
  · simp [parse_sequence_type, sequencePatterns, firstMatch,
      hFLAIR, s1, hSWI, hSWAN, hDWI, hDTI, hASL, hADC, hGRE, hSE, hLOC, s2]

/-- C1 witness: the amended classification theorem applied to the
concrete token-free description `"MPRAGE"`. -/
theorem c1_classification_vectors_witness :
    parse_plane (some "MPRAGE") = none ∧ parse_weight (some "MPRAGE") = none
      ∧ parse_sequence_type (some "MPRAGE") = none :=
  c1_classification_vectors.2.2.2 "MPRAGE" (by
    refine ⟨?_, ?_, ?_, ?_, ?_, ?_, ?_, ?_, ?_, ?_, ?_, ?_, ?_, ?_, ?_⟩ <;> decide)

/-! ## C4: output-path planning -/

/-- Evaluation of the path planner on the spec's vector metadata.  The
slice-location format is the only non-kernel-computable step (rational
rounding), handled by `norm_num`. -/
theorem plan_components_mdVector_eq :
    plan_components mdVector =
      .ok ("2024-09-23_Brain MRI", "03_series", "0012_loc-4.2") := by
  have h : pyFormat1f ((-17 : ℚ)/4) = "-4.2" := by
    have ht : roundHalfEven ((-17 : ℚ)/4 * 10) = -42 := by
      simp only [roundHalfEven]; norm_num
    simp only [pyFormat1f, ht]; decide
  show Except.ok ("2024-09-23_Brain MRI", "03_series",
    "0012" ++ "_loc" ++ pyFormat1f ((-17 : ℚ)/4)) = _
  rw [h]
  rfl

/-- C4 counterexample: on instance number 12 and slice location -4.25
the planned filename is not the spec's `"0012_loc-4.3"` — CPython's
`.1f` formatting rounds the exactly-representable -4.25 half-to-even,
giving `-4.2`. -/
theorem c4_slice_rounding_counterexample :
    (plan_components mdVector).map (fun t => t.2.2) ≠ Except.ok "0012_loc-4.3" := by
  rw [plan_components_mdVector_eq]
  intro hEq
  simp [Except.map] at hEq

/-- C4 (amended): study date `"20240923"` with description `"Brain MRI"`
yields study directory `"2024-09-23_Brain MRI"`, series number 3 yields
the `"03_"` series prefix, and instance 12 with slice location -4.25
yields filename `"0012_loc-4.2"` (one-decimal, round-half-even); with
every attribute absent the planner yields the `"unknown_date_"`-prefixed
study directory, `"00_series"`, and the zero-padded `"0000"`. -/
theorem c4_path_planning :
    plan_components mdVector =
      .ok ("2024-09-23_Brain MRI", "03_series", "0012_loc-4.2")
    ∧ plan_components ({} : Metadata) =
      .ok ("unknown_date_study", "00_series", "0000") :=
  ⟨plan_components_mdVector_eq, rfl⟩

/-! ## C5: multi-valued window center/width -/

/-- C5: the code slip at src/backend/export_dicom.py:153-159.  For a
two-valued `WindowCenter`, `safe_get` has already stringified the list,
so the `isinstance(wc, (list, tuple))` first-element unwrap never fires
and `float(wc)` raises `ValueError` — metadata extraction does not use
the first value and does not complete. -/
theorem c5_multivalue_window_raises :
    extract_metadata dsMultiWindow "p" "f" = Except.error "ValueError" := by
  rfl

/-! ## C2: absent attributes -/

/-- C2 counterexample: extracting the empty dataset (every attribute
absent) yields the empty string — not the absent value — for
patient name, image position patient, image orientation patient, pixel
spacing, and scanning sequence (the five `str(safe_get(ds, attr, ''))`
call sites). -/
theorem c2_absent_patient_name_counterexample :
    (extract_metadata emptyDS "p" "f").map
      (fun m => (m.patient_name, m.image_position_patient,
        m.image_orientation_patient, m.pixel_spacing, m.scanning_sequence))
      = Except.ok ("", "", "", "", "") := by
  rfl

/-- C2 (amended): whenever extraction succeeds, absent attributes yield
the explicit absent value for the plainly-stored fields (study date,
patient ID, slice location, window center shown representatively), but
the five stringified text fields — patient name, image position patient,
image orientation patient, pixel spacing, scanning sequence — yield the
empty string instead of an absent value. -/
theorem c2_absent_fields (ds : DS) (p f : String) (md : Metadata)
    (h : extract_metadata ds p f = Except.ok md) :
    (ds "StudyDate" = none → md.study_date = none)
    ∧ (ds "PatientID" = none → md.patient_id = none)
    ∧ (ds "SliceLocation" = none → md.slice_location = none)
    ∧ (ds "WindowCenter" = none → md.window_center = none)
    ∧ (ds "PatientName" = none → md.patient_name = "")
    ∧ (ds "ImagePositionPatient" = none → md.image_position_patient = "")
    ∧ (ds "ImageOrientationPatient" = none → md.image_orientation_patient = "")
    ∧ (ds "PixelSpacing" = none → md.pixel_spacing = "")
    ∧ (ds "ScanningSequence" = none → md.scanning_sequence = "") := by
  revert h
  unfold extract_metadata
  cases hwc : optPyFloat (unwrapIfList (safe_get ds "WindowCenter" none)) with
  | error e => intro h; exact Except.noConfusion h
  | ok wcF =>
    cases hww : optPyFloat (unwrapIfList (safe_get ds "WindowWidth" none)) with
    | error e => intro h; exact Except.noConfusion h
    | ok wwF =>
      cases hds : seriesDescriptionArg ds with
      | error e => intro h; exact Except.noConfusion h
      | ok desc =>
        intro h
        injection h with hmd
        subst hmd
        refine ⟨?_, ?_, ?_, ?_, ?_, ?_, ?_, ?_, ?_⟩ <;> intro ha
        · simp [safe_get, ha]
        · simp [safe_get, ha]
        · simp [safe_get, ha]
        · have : safe_get ds "WindowCenter" none = none := by simp [safe_get, ha]
          rw [this] at hwc
          simp [unwrapIfList, optPyFloat] at hwc
          simp [hwc]
        · simp [safe_get, ha, emptyStrDefault, pyStrOpt, dScalarStr]
        · simp [safe_get, ha, emptyStrDefault, pyStrOpt, dScalarStr]
        · simp [safe_get, ha, emptyStrDefault, pyStrOpt, dScalarStr]
        · simp [safe_get, ha, emptyStrDefault, pyStrOpt, dScalarStr]
        · simp [safe_get, ha, emptyStrDefault, pyStrOpt, dScalarStr]

/-- C2 witness: the amended theorem applied to the empty dataset. -/
theorem c2_absent_fields_witness :
    mdOfEmpty.study_date = none ∧ mdOfEmpty.patient_id = none
    ∧ mdOfEmpty.slice_location = none ∧ mdOfEmpty.window_center = none
    ∧ mdOfEmpty.patient_name = "" ∧ mdOfEmpty.image_position_patient = ""
    ∧ mdOfEmpty.image_orientation_patient = "" ∧ mdOfEmpty.pixel_spacing = ""
    ∧ mdOfEmpty.scanning_sequence = "" := by
  have h := c2_absent_fields emptyDS "p" "f" mdOfEmpty rfl
  exact ⟨h.1 rfl, h.2.1 rfl, h.2.2.1 rfl, h.2.2.2.1 rfl, h.2.2.2.2.1 rfl,
    h.2.2.2.2.2.1 rfl, h.2.2.2.2.2.2.1 rfl, h.2.2.2.2.2.2.2.1 rfl,
    h.2.2.2.2.2.2.2.2 rfl⟩

/-! ## C7: catalog upsert uniqueness -/

/-- Rows surviving the replace-delete never match the inserted path. -/
theorem filter_eq_after_bne_filter (t : List (String × Metadata)) (p : String) :
    ((t.filter (fun r => r.1 != p)).filter (fun r => r.1 == p)) = [] := by
  rw [List.filter_eq_nil_iff]
  intro a ha
  have hkeep := List.of_mem_filter ha
  simp only [bne_iff_ne, ne_eq, decide_eq_true_eq] at hkeep
  simp [hkeep]

/-- One upsert keeps the per-path row count at or below one. -/
theorem countP_insert_or_replace_le (t : List (String × Metadata))
    (r : String × Metadata) (p : String)
    (h : t.countP (fun x => x.1 == p) ≤ 1) :
    (insert_or_replace t r).countP (fun x => x.1 == p) ≤ 1 := by
  unfold insert_or_replace
  rw [List.countP_append]
  by_cases hp : r.1 = p
  · have h0 : (t.filter (fun x => x.1 != r.1)).countP (fun x => x.1 == p) = 0 := by
      rw [List.countP_eq_zero]
      intro a ha
      have hkeep := List.of_mem_filter ha
      simp only [bne_iff_ne, ne_eq, decide_eq_true_eq] at hkeep
      simp [hp ▸ hkeep]
    rw [h0]
    simp [List.countP_cons, hp]
  · have h1 : List.countP (fun x => x.1 == p) [r] = 0 := by
      simp [List.countP_cons, hp]
    rw [h1]
    have h2 : (t.filter (fun x => x.1 != r.1)).countP (fun x => x.1 == p)
        ≤ t.countP (fun x => x.1 == p) := by
      rw [List.countP_filter]
      exact List.countP_mono_left (fun x _ hx => by
        simp only [Bool.and_eq_true] at hx
        exact hx.1)
    omega

/-- C7: the catalog's per-path uniqueness.  Upserting a path twice (with
any table prefix and any two payloads) leaves exactly one row for that
path, carrying the second payload; and any sequence of upserts into an
initially empty `dicom_images` table leaves at most one row per source
path. -/
theorem c7_catalog_upsert_unique :
    (∀ (t : List (String × Metadata)) (p : String) (m1 m2 : Metadata),
      (insert_or_replace (insert_or_replace t (p, m1)) (p, m2)).filter
        (fun r => r.1 == p) = [(p, m2)])
    ∧ (∀ (ops : List (String × Metadata)) (p : String),
      ((ops.foldl insert_or_replace []).countP (fun r => r.1 == p)) ≤ 1) := by
  constructor
  · intro t p m1 m2
    unfold insert_or_replace
    rw [List.filter_append, filter_eq_after_bne_filter]
    simp
  · intro ops p
    suffices hgen : ∀ (t : List (String × Metadata)),
        t.countP (fun r => r.1 == p) ≤ 1 →
        (ops.foldl insert_or_replace t).countP (fun r => r.1 == p) ≤ 1 by
      exact hgen [] (by simp)
    induction ops with
    | nil => intro t ht; simpa using ht
    | cons r rest ih =>
      intro t ht
      exact ih _ (countP_insert_or_replace_le t r p ht)

/-! ## Helper lemmas: list minima and maxima over ℚ -/

theorem foldl_min_spec (t : List ℚ) (acc : ℚ) :
    t.foldl min acc ≤ acc ∧ (∀ b ∈ t, t.foldl min acc ≤ b)
      ∧ (t.foldl min acc = acc ∨ t.foldl min acc ∈ t) := by
  induction t generalizing acc with
  | nil => simp
  | cons y ys ih =>
    simp only [List.foldl_cons]
    obtain ⟨h1, h2, h3⟩ := ih (min acc y)
    refine ⟨le_trans h1 (min_le_left _ _), ?_, ?_⟩
    · intro b hb
      rcases List.mem_cons.mp hb with rfl | hb
      · exact le_trans h1 (min_le_right _ _)
      · exact h2 b hb
    · rcases h3 with he | hm
      · rcases min_choice acc y with hc | hc
        · left; rw [he, hc]
        · right; rw [he, hc]; exact List.mem_cons_self _ _
      · right; exact List.mem_cons_of_mem _ hm

theorem foldl_max_spec (t : List ℚ) (acc : ℚ) :
    acc ≤ t.foldl max acc ∧ (∀ b ∈ t, b ≤ t.foldl max acc)
      ∧ (t.foldl max acc = acc ∨ t.foldl max acc ∈ t) := by
  induction t generalizing acc with
  | nil => simp
  | cons y ys ih =>
    simp only [List.foldl_cons]
    obtain ⟨h1, h2, h3⟩ := ih (max acc y)
    refine ⟨le_trans (le_max_left _ _) h1, ?_, ?_⟩
    · intro b hb
      rcases List.mem_cons.mp hb with rfl | hb
      · exact le_trans (le_max_right _ _) h1
      · exact h2 b hb
    · rcases h3 with he | hm
      · rcases max_choice acc y with hc | hc
        · left; rw [he, hc]
        · right; rw [he, hc]; exact List.mem_cons_self _ _
      · right; exact List.mem_cons_of_mem _ hm

theorem qmin?_eq_some (l : List ℚ) (a : ℚ) (hmem : a ∈ l) (hle : ∀ b ∈ l, a ≤ b) :
    l.min? = some a := by
  cases l with
  | nil => cases hmem
  | cons x t =>
    rw [List.min?_cons']
    obtain ⟨h1, h2, h3⟩ := foldl_min_spec t x
    congr 1
    apply le_antisymm
    · rcases List.mem_cons.mp hmem with rfl | hm
      · exact h1
      · exact h2 a hm
    · rcases h3 with he | hm
      · rw [he]; exact hle x (List.mem_cons_self _ _)
      · exact hle _ (List.mem_cons_of_mem _ hm)

theorem qmax?_eq_some (l : List ℚ) (a : ℚ) (hmem : a ∈ l) (hle : ∀ b ∈ l, b ≤ a) :
    l.max? = some a := by
  cases l with
  | nil => cases hmem
  | cons x t =>
    rw [List.max?_cons']
    obtain ⟨h1, h2, h3⟩ := foldl_max_spec t x
    congr 1
    apply le_antisymm
    · rcases h3 with he | hm
      · rw [he]; exact hle x (List.mem_cons_self _ _)
      · exact hle _ (List.mem_cons_of_mem _ hm)
    · rcases List.mem_cons.mp hmem with rfl | hm
      · exact h1
      · exact h2 a hm

theorem gridMin_mem (b : List (List ℚ)) (hne : b.flatten ≠ []) :
    gridMin b ∈ b.flatten := by
  unfold gridMin gridJoin
  cases hb : b.flatten with
  | nil => exact absurd hb hne
  | cons x t =>
    rw [List.min?_cons']
    obtain ⟨h1, h2, h3⟩ := foldl_min_spec t x
    rcases h3 with he | hm
    · simp [he]
    · simp [List.mem_cons_of_mem _ hm]

theorem gridMax_mem (b : List (List ℚ)) (hne : b.flatten ≠ []) :
    gridMax b ∈ b.flatten := by
  unfold gridMax gridJoin
  cases hb : b.flatten with
  | nil => exact absurd hb hne
  | cons x t =>
    rw [List.max?_cons']
    obtain ⟨h1, h2, h3⟩ := foldl_max_spec t x
    rcases h3 with he | hm
    · simp [he]
    · simp [List.mem_cons_of_mem _ hm]

theorem le_gridMax_of_mem (b : List (List ℚ)) (x : ℚ) (hx : x ∈ b.flatten) :
    x ≤ gridMax b := by
  unfold gridMax gridJoin
  cases hb : b.flatten with
  | nil => rw [hb] at hx; cases hx
  | cons y t =>
    rw [hb] at hx
    rw [List.max?_cons']
    obtain ⟨h1, h2, _⟩ := foldl_max_spec t y
    rcases List.mem_cons.mp hx with rfl | hm
    · simpa using h1
    · simpa using h2 x hm

theorem gridMin_le_of_mem (b : List (List ℚ)) (x : ℚ) (hx : x ∈ b.flatten) :
    gridMin b ≤ x := by
  unfold gridMin gridJoin
  cases hb : b.flatten with
  | nil => rw [hb] at hx; cases hx
  | cons y t =>
    rw [hb] at hx
    rw [List.min?_cons']
    obtain ⟨h1, h2, _⟩ := foldl_min_spec t y
    rcases List.mem_cons.mp hx with rfl | hm
    · simpa using h1
    · simpa using h2 x hm

/-! ## Helper lemmas: the normalization block -/

/-- Flat input short-circuits the normalization into the all-zero
branch. -/
theorem normalize_flat (u : Bool) (b : List (List ℚ)) (c : ℚ)
    (h : ∀ x ∈ b.flatten, x = c) :
    normalize_grid u b = b.map (List.map (fun _ => 0)) := by
  unfold normalize_grid
  have hnlt : ¬ (gridMin b < gridMax b) := by
    cases hb : b.flatten with
    | nil =>
      unfold gridMin gridMax gridJoin
      rw [hb]
      simp
    | cons x t =>
      have hcm : c ∈ b.flatten := by
        rw [hb]
        have := h x (by rw [hb]; exact List.mem_cons_self _ _)
        rw [← this]
        exact List.mem_cons_self _ _
      have hmin : gridMin b = c := by
        unfold gridMin gridJoin
        rw [qmin?_eq_some b.flatten c hcm (fun y hy => le_of_eq (h y hy).symm)]
        rfl
      have hmax : gridMax b = c := by
        unfold gridMax gridJoin
        rw [qmax?_eq_some b.flatten c hcm (fun y hy => le_of_eq (h y hy))]
        rfl
      rw [hmin, hmax]
      exact lt_irrefl c
  rw [if_neg hnlt]

/-- Every sample of the normalized grid is at most the target range's
maximum. -/
theorem normalize_le_top (u : Bool) (b : List (List ℚ)) :
    ∀ v ∈ (normalize_grid u b).flatten, v ≤ (if u then 65535 else 255) := by
  intro v hv
  unfold normalize_grid at hv
  by_cases hlt : gridMin b < gridMax b
  · rw [if_pos hlt, ← List.map_flatten] at hv
    obtain ⟨x, hx, rfl⟩ := List.mem_map.mp hv
    have hxle : x ≤ gridMax b := le_gridMax_of_mem b x hx
    have htop : (0 : ℚ) < (if u then 65535 else 255) := by cases u <;> norm_num
    have hq : (x - gridMin b) / (gridMax b - gridMin b) * (if u then 65535 else 255)
        ≤ (if u then 65535 else 255) := by
      have hratio : (x - gridMin b) / (gridMax b - gridMin b) ≤ 1 := by
        rw [div_le_one (by linarith)]
        linarith
      calc (x - gridMin b) / (gridMax b - gridMin b) * (if u then 65535 else 255)
          ≤ 1 * (if u then 65535 else 255) :=
            mul_le_mul_of_nonneg_right hratio (le_of_lt htop)
        _ = (if u then 65535 else 255) := one_mul _
    unfold pyTruncToNat
    have hfl : ⌊(x - gridMin b) / (gridMax b - gridMin b) * (if u then 65535 else 255)⌋
        ≤ ((if u then 65535 else 255 : ℕ) : ℤ) := by
      refine le_trans (Int.floor_le_floor hq) ?_
      cases u <;> norm_num
    exact Int.toNat_le.mpr hfl
  · rw [if_neg hlt, ← List.map_flatten] at hv
    obtain ⟨x, hx, rfl⟩ := List.mem_map.mp hv
    exact Nat.zero_le _

/-! ## Helper lemmas: the two grayscale branches of dicom_to_image -/

theorem dicom_gray_mono1 (u : Bool) (s i : ℚ) (w : Option (ℚ × ℚ))
    (g : List (List ℚ)) :
    dicom_to_image_gray "MONOCHROME1" u s i w g
      = (normalize_grid u (apply_voi w (apply_modality s i g))).map
          (List.map (fun v => (if u then 65535 else 255) - v)) := by
  simp [dicom_to_image_gray]

theorem dicom_gray_mono2 (u : Bool) (s i : ℚ) (w : Option (ℚ × ℚ))
    (g : List (List ℚ)) :
    dicom_to_image_gray "MONOCHROME2" u s i w g
      = normalize_grid u (apply_voi w (apply_modality s i g)) := by
  simp [dicom_to_image_gray]

/-! ## C3: flat grids -/

/-- C3 counterexample: a flat grid rendered under the inverted
interpretation MONOCHROME1 yields the all-maximum grid, not the claimed
all-zero grid — the zeroing happens before the MONOCHROME1 inversion
(`65535 - value`) in `dicom_to_image`. -/
theorem c3_mono1_flat_counterexample :
    dicom_to_image_gray "MONOCHROME1" true 1 0 none [[5, 5]] = [[65535, 65535]]
    ∧ dicom_to_image_gray "MONOCHROME1" true 1 0 none [[5, 5]] ≠ [[0, 0]] := by
  have hb : ∀ x ∈ (apply_voi none (apply_modality 1 0 [[(5 : ℚ), 5]])).flatten,
      x = (5 : ℚ) * 1 + 0 := by
    intro x hx
    simp [apply_voi, apply_modality] at hx
    simp [hx]
  have hn := normalize_flat true (apply_voi none (apply_modality 1 0 [[5, 5]]))
    ((5 : ℚ) * 1 + 0) hb
  rw [dicom_gray_mono1, hn]
  constructor
  · simp [apply_voi, apply_modality]
  · simp [apply_voi, apply_modality]

/-- C3 (amended): for every flat grayscale grid under both bit depths,
rendering never divides (the flat branch is taken for any slope,
intercept, and window) and produces the all-zero grid of the same
dimensions for MONOCHROME2 — but the all-maximum grid (65535 or 255) of
the same dimensions for MONOCHROME1, whose inversion runs after the
zeroing. -/
theorem c3_flat_grid (g : List (List ℚ)) (v : ℚ) (u : Bool) (s i : ℚ)
    (w : Option (ℚ × ℚ)) (hflat : ∀ x ∈ g.flatten, x = v) :
    dicom_to_image_gray "MONOCHROME2" u s i w g = g.map (List.map (fun _ => 0))
    ∧ dicom_to_image_gray "MONOCHROME1" u s i w g
      = g.map (List.map (fun _ => if u then 65535 else 255)) := by
  have hform : ∃ F : ℚ → ℚ,
      apply_voi w (apply_modality s i g) = g.map (List.map F) := by
    cases w with
    | none => exact ⟨fun x => x * s + i, rfl⟩
    | some cw =>
      refine ⟨fun x => voiPoint cw.1 cw.2 (x * s + i), ?_⟩
      simp [apply_voi, apply_modality, List.map_map, Function.comp]
  obtain ⟨F, hF⟩ := hform
  have hbflat : ∀ x ∈ (apply_voi w (apply_modality s i g)).flatten, x = F v := by
    rw [hF, ← List.map_flatten]
    intro x hx
    obtain ⟨y, hy, rfl⟩ := List.mem_map.mp hx
    rw [hflat y hy]
  have hn := normalize_flat u (apply_voi w (apply_modality s i g)) (F v) hbflat
  constructor
  · rw [dicom_gray_mono2, hn, hF]
    simp [List.map_map, Function.comp_def]
  · rw [dicom_gray_mono1, hn, hF]
    simp [List.map_map, Function.comp_def]

/-- C3 witness: the amended flat-grid theorem applied to the concrete
flat 16-bit grid `[[5, 5]]` with identity calibration and no window. -/
theorem c3_flat_grid_witness :
    dicom_to_image_gray "MONOCHROME2" true 1 0 none [[5, 5]]
      = [[(5 : ℚ), 5]].map (List.map (fun _ => 0))
    ∧ dicom_to_image_gray "MONOCHROME1" true 1 0 none [[5, 5]]
      = [[(5 : ℚ), 5]].map (List.map (fun _ => if true then 65535 else 255)) :=
  c3_flat_grid [[5, 5]] 5 true 1 0 none (by intro x hx; simp at hx; simp [hx])

/-! ## C9: MONOCHROME1 is the bit-complement of MONOCHROME2 -/

/-- C9: on identical input and window, at either bit depth, the
MONOCHROME1 rendering equals the pixelwise bit-complement
(`top - value`, with `top` 65535 or 255) of the MONOCHROME2 rendering,
whose samples never exceed `top`. -/
theorem c9_mono1_bit_complement (u : Bool) (s i : ℚ) (w : Option (ℚ × ℚ))
    (g : List (List ℚ)) :
    dicom_to_image_gray "MONOCHROME1" u s i w g
      = (dicom_to_image_gray "MONOCHROME2" u s i w g).map
          (List.map (fun v => (if u then 65535 else 255) - v))
    ∧ ∀ v ∈ (dicom_to_image_gray "MONOCHROME2" u s i w g).flatten,
        v ≤ (if u then 65535 else 255) := by
  constructor
  · rw [dicom_gray_mono1, dicom_gray_mono2]
  · rw [dicom_gray_mono2]
    exact normalize_le_top u _

/-- C9 witness: the complement theorem applied to a concrete two-pixel
16-bit grid. -/
theorem c9_mono1_bit_complement_witness :
    dicom_to_image_gray "MONOCHROME1" true 1 0 none [[1, 2]]
      = (dicom_to_image_gray "MONOCHROME2" true 1 0 none [[1, 2]]).map
          (List.map (fun v => (if true then 65535 else 255) - v))
    ∧ ∀ v ∈ (dicom_to_image_gray "MONOCHROME2" true 1 0 none [[1, 2]]).flatten,
        v ≤ (if true then 65535 else 255) :=
  c9_mono1_bit_complement true 1 0 none [[1, 2]]

/-! ## C8: a window spanning [min, max] maps the extremes to 0 and 65535 -/

theorem zip_map_snd (l : List ℚ) (F : ℚ → ℕ) :
    ∀ p ∈ l.zip (l.map F), p.2 = F p.1 := by
  induction l with
  | nil => simp
  | cons x t ih =>
    intro p hp
    rw [List.map_cons, List.zip_cons_cons] at hp
    rcases List.mem_cons.mp hp with rfl | hp
    · rfl
    · exact ih p hp

/-- C8: for a grayscale grid whose modality-transformed samples have
minimum M0 strictly below maximum M1, rendering with the window exactly
spanning [M0, M1] (center (M0+M1)/2, width M1-M0) at 16-bit depth sends
every minimum sample to 0 and every maximum sample to 65535 — exactly,
hence within the claimed rounding tolerance of one unit. -/
theorem c8_spanning_window_extremes (g : List (List ℚ)) (s i : ℚ)
    (hne : (apply_modality s i g).flatten ≠ [])
    (hlt : gridMin (apply_modality s i g) < gridMax (apply_modality s i g)) :
    gridMin (apply_modality s i g) ∈ (apply_modality s i g).flatten
    ∧ gridMax (apply_modality s i g) ∈ (apply_modality s i g).flatten
    ∧ ∀ p ∈ (apply_modality s i g).flatten.zip
        (dicom_to_image_gray "MONOCHROME2" true s i
          (some ((gridMin (apply_modality s i g) + gridMax (apply_modality s i g)) / 2,
            gridMax (apply_modality s i g) - gridMin (apply_modality s i g))) g).flatten,
        (p.1 = gridMin (apply_modality s i g) → p.2 = 0)
        ∧ (p.1 = gridMax (apply_modality s i g) → p.2 = 65535) := by
  set a := apply_modality s i g with ha
  set M0 := gridMin a with hM0
  set M1 := gridMax a with hM1
  set c := (M0 + M1) / 2 with hc
  set w := M1 - M0 with hwdef
  have hw : 0 < w := sub_pos.mpr hlt
  have hcw1 : c - w / 2 = M0 := by rw [hc, hwdef]; ring
  have hcw2 : c + w / 2 = M1 := by rw [hc, hwdef]; ring
  have hM0mem := gridMin_mem a hne
  have hM1mem := gridMax_mem a hne
  have hvp0 : voiPoint c w M0 = 0 := by
    unfold voiPoint clampQ
    rw [hcw1, hcw2, min_eq_right (le_of_lt hlt), max_self, sub_self, zero_div, zero_mul]
  have hvp1 : voiPoint c w M1 = 65535 := by
    unfold voiPoint clampQ
    rw [hcw1, hcw2, min_self, max_eq_right (le_of_lt hlt), ← hwdef,
      div_self (ne_of_gt hw), one_mul]
  have hvp_nonneg : ∀ x, 0 ≤ voiPoint c w x := by
    intro x
    unfold voiPoint clampQ
    rw [hcw1, hcw2]
    apply mul_nonneg _ (by norm_num)
    exact div_nonneg (sub_nonneg.mpr (le_max_left _ _)) (le_of_lt hw)
  have hvp_le : ∀ x, voiPoint c w x ≤ 65535 := by
    intro x
    unfold voiPoint clampQ
    rw [hcw1, hcw2]
    have h1 : max M0 (min M1 x) ≤ M1 := max_le (le_of_lt hlt) (min_le_left _ _)
    have h2 : (max M0 (min M1 x) - M0) / w ≤ 1 := by
      rw [div_le_one hw, hwdef]
      linarith
    calc (max M0 (min M1 x) - M0) / w * 65535
        ≤ 1 * 65535 := mul_le_mul_of_nonneg_right h2 (by norm_num)
      _ = 65535 := one_mul _
  have hbflat : (apply_voi (some (c, w)) a).flatten = a.flatten.map (voiPoint c w) := by
    show (a.map (List.map (voiPoint c w))).flatten = _
    rw [← List.map_flatten]
  have hbmin : gridMin (apply_voi (some (c, w)) a) = 0 := by
    unfold gridMin gridJoin
    rw [hbflat, qmin?_eq_some (a.flatten.map (voiPoint c w)) 0
      (List.mem_map.mpr ⟨M0, hM0mem, hvp0⟩)
      (fun y hy => by
        obtain ⟨x, hx, rfl⟩ := List.mem_map.mp hy
        exact hvp_nonneg x)]
    rfl
  have hbmax : gridMax (apply_voi (some (c, w)) a) = 65535 := by
    unfold gridMax gridJoin
    rw [hbflat, qmax?_eq_some (a.flatten.map (voiPoint c w)) 65535
      (List.mem_map.mpr ⟨M1, hM1mem, hvp1⟩)
      (fun y hy => by
        obtain ⟨x, hx, rfl⟩ := List.mem_map.mp hy
        exact hvp_le x)]
    rfl
  have hout : dicom_to_image_gray "MONOCHROME2" true s i (some (c, w)) g
      = (apply_voi (some (c, w)) a).map
          (List.map (fun x => pyTruncToNat ((x - 0) / (65535 - 0) * 65535))) := by
    rw [dicom_gray_mono2, ← ha]
    simp only [normalize_grid, hbmin, hbmax]
    rw [if_pos (by norm_num)]
    norm_num
  refine ⟨hM0mem, hM1mem, ?_⟩
  have houtflat : (dicom_to_image_gray "MONOCHROME2" true s i (some (c, w)) g).flatten
      = a.flatten.map
          (fun x => pyTruncToNat ((voiPoint c w x - 0) / (65535 - 0) * 65535)) := by
    rw [hout, ← List.map_flatten, hbflat, List.map_map]
    rfl
  intro p hp
  rw [houtflat] at hp
  have hsnd := zip_map_snd a.flatten _ p hp
  constructor
  · intro hpe
    rw [hsnd, hpe, hvp0]
    norm_num [pyTruncToNat]
  · intro hpe
    rw [hsnd, hpe, hvp1]
    norm_num [pyTruncToNat]
    rfl

/-- C8 witness: the spanning-window theorem applied to the concrete grid
`[[0, 1]]` with identity calibration (minimum 0, maximum 1). -/
theorem c8_spanning_window_extremes_witness :
    gridMin (apply_modality 1 0 [[(0 : ℚ), 1]]) ∈ (apply_modality 1 0 [[(0 : ℚ), 1]]).flatten
    ∧ gridMax (apply_modality 1 0 [[(0 : ℚ), 1]]) ∈ (apply_modality 1 0 [[(0 : ℚ), 1]]).flatten
    ∧ ∀ p ∈ (apply_modality 1 0 [[(0 : ℚ), 1]]).flatten.zip
        (dicom_to_image_gray "MONOCHROME2" true 1 0
          (some ((gridMin (apply_modality 1 0 [[(0 : ℚ), 1]])
              + gridMax (apply_modality 1 0 [[(0 : ℚ), 1]])) / 2,
            gridMax (apply_modality 1 0 [[(0 : ℚ), 1]])
              - gridMin (apply_modality 1 0 [[(0 : ℚ), 1]]))) [[(0 : ℚ), 1]]).flatten,
        (p.1 = gridMin (apply_modality 1 0 [[(0 : ℚ), 1]]) → p.2 = 0)
        ∧ (p.1 = gridMax (apply_modality 1 0 [[(0 : ℚ), 1]]) → p.2 = 65535) := by
  have ha : apply_modality 1 0 [[(0 : ℚ), 1]] = [[0, 1]] := by
    norm_num [apply_modality]
  refine c8_spanning_window_extremes [[(0 : ℚ), 1]] 1 0 ?_ ?_
  · rw [ha]
    simp
  · rw [ha]
    simp only [gridMin, gridMax, gridJoin, List.flatten, List.min?_cons', List.max?_cons']
    norm_num [min_def, max_def]

/-! ## C6: per-file failure isolation -/

/-- C6 counterexample: a file whose rendering fails (`dicom_to_image`
returns `False`) is still cataloged (with an absent image path) and
counted as processed — `process_dicom_file` returns `True` for it — so a
render failure is not counted in the failed statistic as the claim
states. -/
theorem c6_render_failure_counted_processed_counterexample :
    export_all_dicoms false false "out" [renderFailInput]
      = { total_files := 1, processed := 1, failed := 0, skipped := 0,
          studies := 0, series := 0 } := by
  rfl

/-- C6 (amended): processing is per-file and total — a run over
`xs ++ ys` is the run over `ys` continued from the run over `xs`, so no
file aborts the rest; an unreadable tag stream is caught and yields
`False` (counted failed by the orchestrator), as does a catalog write
failure; but a render failure is caught inside the renderer and the file
is still cataloged with an absent image path and counted processed.  No
exception crosses the per-file boundary: every outcome is a returned
flag. -/
theorem c6_per_file_isolation :
    (∀ (sa gb : Bool) (ob : String) (xs ys : List InputEntry) (rs : RunState),
      (xs ++ ys).foldl (input_step sa gb ob) rs
        = ys.foldl (input_step sa gb ob) (xs.foldl (input_step sa gb ob) rs))
    ∧ (∀ (ob sf : String) (w : FileWorld) (st : Stats)
        (t : List (String × Metadata)) (m : String), w.readResult = .error m →
        process_dicom_file ob sf w st t = (st, t, false))
    ∧ (∀ (ob sf : String) (w : FileWorld) (st : Stats)
        (t : List (String × Metadata)) (ds : DS) (md : Metadata)
        (pc : String × String × String) (m : String),
        w.readResult = .ok ds → extract_metadata ds w.path sf = .ok md →
        plan_components md = .ok pc → w.dbResult = .error m →
        process_dicom_file ob sf w st t = (record_uids st md, t, false))
    ∧ (∀ (ob sf : String) (w : FileWorld) (st : Stats)
        (t : List (String × Metadata)) (ds : DS) (md : Metadata)
        (pc : String × String × String),
        w.readResult = .ok ds → extract_metadata ds w.path sf = .ok md →
        plan_components md = .ok pc → w.dbResult = .ok () → w.renderOk = false →
        process_dicom_file ob sf w st t
          = (record_uids st md,
             insert_or_replace t (w.path, { md with exported_jpeg_path := none }),
             true))
    ∧ (∀ (sa gb : Bool) (ob : String) (rs : RunState) (f : CandidateFile)
        (st' : Stats) (t' : List (String × Metadata)),
        should_consider_file sa f.suffix f.sniff = true →
        process_dicom_file ob f.parentName f.world
          { rs.stats with total_files := rs.stats.total_files + 1 } rs.table
          = (st', t', false) →
        input_step sa gb ob rs (.file f)
          = { stats := { st' with failed := st'.failed + 1 }, table := t' }) := by
  refine ⟨?_, ?_, ?_, ?_, ?_⟩
  · intro sa gb ob xs ys rs
    exact List.foldl_append _ _ _ _
  · intro ob sf w st t m h
    simp only [process_dicom_file, h]
  · intro ob sf w st t ds md pc m h1 h2 h3 h4
    obtain ⟨sd, sr, fn⟩ := pc
    simp only [process_dicom_file, h1, h2, h3, h4]
  · intro ob sf w st t ds md pc h1 h2 h3 h4 h5
    obtain ⟨sd, sr, fn⟩ := pc
    simp only [process_dicom_file, h1, h2, h3, h4, h5]
    simp
  · intro sa gb ob rs f st' t' h1 h2
    simp only [input_step, run_candidate, h1, h2]
    simp

/-- C6 witness: the isolation theorem applied to three concrete worlds —
an unreadable stream, a failing catalog write, and a failing render. -/
theorem c6_per_file_isolation_witness :
    process_dicom_file "out" "f" badReadWorld {} [] = ({}, [], false)
    ∧ process_dicom_file "out" "f" badDbWorld {} []
        = (record_uids {} mdOfEmpty, [], false)
    ∧ process_dicom_file "out" "f" renderFailWorld {} []
        = (record_uids {} mdOfEmpty,
           insert_or_replace [] ("p", { mdOfEmpty with exported_jpeg_path := none }),
           true) :=
  ⟨c6_per_file_isolation.2.1 "out" "f" badReadWorld {} [] "MalformedStream" rfl,
   c6_per_file_isolation.2.2.1 "out" "f" badDbWorld {} [] emptyDS mdOfEmpty
     ("unknown_date_study", "00_series", "0000") "CatalogWriteFailure" rfl rfl rfl rfl,
   c6_per_file_isolation.2.2.2.1 "out" "f" renderFailWorld {} [] emptyDS mdOfEmpty
     ("unknown_date_study", "00_series", "0000") rfl rfl rfl rfl rfl⟩

/-! ## C10: statistics partition -/

theorem record_uids_counters (st : Stats) (md : Metadata) :
    (record_uids st md).total_files = st.total_files
    ∧ (record_uids st md).processed = st.processed
    ∧ (record_uids st md).failed = st.failed
    ∧ (record_uids st md).skipped = st.skipped := by
  unfold record_uids
  rcases md.study_instance_uid with _ | v <;> rcases md.series_instance_uid with _ | u <;>
    simp <;> split_ifs <;> simp

theorem process_dicom_file_counters (ob sf : String) (w : FileWorld) (st : Stats)
    (t : List (String × Metadata)) :
    (process_dicom_file ob sf w st t).1.total_files = st.total_files
    ∧ (process_dicom_file ob sf w st t).1.processed = st.processed
    ∧ (process_dicom_file ob sf w st t).1.failed = st.failed
    ∧ (process_dicom_file ob sf w st t).1.skipped = st.skipped := by
  unfold process_dicom_file
  cases hR : w.readResult with
  | error m => simp [hR]
  | ok ds =>
    simp only [hR]
    cases hE : extract_metadata ds w.path sf with
    | error e => simp [hE]
    | ok md =>
      simp only [hE]
      have hr := record_uids_counters st md
      cases hP : plan_components md with
      | error e => simp only [hP]; simpa using hr
      | ok pc =>
        obtain ⟨sd, sr, fn⟩ := pc
        simp only [hP]
        cases hD : w.dbResult with
        | error e => simp only [hD]; simpa using hr
        | ok u => simp only [hD]; simpa using hr

theorem run_candidate_balanced (ob sf : String) (w : FileWorld) (st : Stats)
    (t : List (String × Metadata))
    (h : st.total_files = st.processed + st.skipped + st.failed + 1) :
    statsBalanced (run_candidate ob sf w st t).stats := by
  unfold run_candidate
  rcases hpr : process_dicom_file ob sf w st t with ⟨st', t', b⟩
  have hc := process_dicom_file_counters ob sf w st t
  rw [hpr] at hc
  obtain ⟨h1, h2, h3, h4⟩ := hc
  simp only at h1 h2 h3 h4
  cases b
  · unfold statsBalanced
    simp
    omega
  · unfold statsBalanced
    simp
    omega

theorem scan_step_balanced (sa gb : Bool) (ob rn : String) (rs : RunState)
    (e : DirEntry) (h : statsBalanced rs.stats) :
    statsBalanced (scan_step sa gb ob rn rs e).stats := by
  unfold scan_step
  split_ifs with h1 h2 h3 h4
  · exact h
  · exact h
  · exact h
  · unfold statsBalanced at h ⊢
    simp
    omega
  · exact run_candidate_balanced ob _ e.world _ rs.table (by
      unfold statsBalanced at h
      simp
      omega)

theorem input_step_balanced (sa gb : Bool) (ob : String) (rs : RunState)
    (inp : InputEntry) (h : statsBalanced rs.stats) :
    statsBalanced (input_step sa gb ob rs inp).stats := by
  cases inp with
  | missing p => exact h
  | file f =>
    simp only [input_step]
    split_ifs with h1
    · unfold statsBalanced at h ⊢
      simp
      omega
    · exact run_candidate_balanced ob _ f.world _ rs.table (by
        unfold statsBalanced at h
        simp
        omega)
  | dir rn entries =>
    simp only [input_step]
    induction entries generalizing rs with
    | nil => exact h
    | cons e rest ih =>
      simp only [List.foldl_cons]
      exact ih (scan_step sa gb ob rn rs e) (scan_step_balanced sa gb ob rn rs e h)

/-- C10 counterexample: a zip archive passed directly as a file input is
counted — it lands in total_files and skipped — contradicting the
claim's "zip archives are excluded before candidate counting so they
appear in no counter" (only the directory scan excludes them). -/
theorem c10_zip_direct_input_counterexample :
    export_all_dicoms false false "out" [zipFileInput]
      = { total_files := 1, processed := 0, failed := 0, skipped := 1,
          studies := 0, series := 0 } := by
  rfl

/-- C10 (amended): at the end of every run,
total_files = processed + skipped + failed, every counted candidate
falling into exactly one counter; nonexistent input paths change
nothing; and hidden files and zip archives encountered during a
directory scan are excluded before counting — but a zip or hidden file
passed directly as a file input is counted as a candidate and classified
like any other file. -/
theorem c10_stats_partition :
    (∀ (sa gb : Bool) (ob : String) (inputs : List InputEntry),
      (export_all_dicoms sa gb ob inputs).total_files
        = (export_all_dicoms sa gb ob inputs).processed
          + (export_all_dicoms sa gb ob inputs).skipped
          + (export_all_dicoms sa gb ob inputs).failed)
    ∧ (∀ (sa gb : Bool) (ob p : String) (rs : RunState),
      input_step sa gb ob rs (.missing p) = rs)
    ∧ (∀ (sa gb : Bool) (ob rn : String) (rs : RunState) (e : DirEntry),
      (e.relParts.any (fun part => strStartsWith part ".") = true
        ∨ toLowerStr e.suffix = ".zip") →
      scan_step sa gb ob rn rs e = rs) := by
  refine ⟨?_, ?_, ?_⟩
  · intro sa gb ob inputs
    have hfold : ∀ (rs : RunState), statsBalanced rs.stats →
        statsBalanced ((inputs.foldl (input_step sa gb ob) rs)).stats := by
      induction inputs with
      | nil => intro rs h; exact h
      | cons inp rest ih =>
        intro rs h
        simp only [List.foldl_cons]
        exact ih _ (input_step_balanced sa gb ob rs inp h)
    have hrun := hfold {} (by simp [statsBalanced])
    unfold export_all_dicoms
    exact hrun
  · intro sa gb ob p rs
    rfl
  · intro sa gb ob rn rs e h
    unfold scan_step
    rcases h with ha | hz
    · split_ifs <;> simp_all
    · split_ifs <;> simp_all

/-- C10 witness: a zip archive met during a directory scan leaves the
run state untouched (it is excluded before counting). -/
theorem c10_stats_partition_witness :
    scan_step false false "out" "root" {} zipDirEntry = {} :=
  c10_stats_partition.2.2 false false "out" "root" {} zipDirEntry (Or.inr rfl)
